import Mathlib

/-!
FormGuard: the upload form's submit script (static/js/script.js).

The script queries three elements once the document is parsed (the form, the
file input and the button), registers a submit listener on the form, and the
listener validates that a file has been chosen.

The embedding keeps the three element references as optional values (a
querySelector that finds nothing yields null), records every write and call the
listener performs in an ordered trace, and keeps a thrown TypeError together
with the writes that happened before it.

The border field of the file input holds the text the script last assigned to
style.border.  What a browser returns when the property is read back is the
serialised declaration, which may spell the colour differently from the text
assigned; that serialiser is not part of the script and is not modelled.  Facts
about the neutral border "1px solid #ccc" are therefore stated on the writes of
the trace, never on the field.
-/

namespace FormGuard

/-- Errors thrown by the JavaScript runtime that the script can reach. -/
inductive JsError where
  | typeError
  deriving DecidableEq, Repr

/-- Observable actions of the listener, in the order they are performed. -/
inductive Effect where
  | setBorder (value : String)
  | alert (message : String)
  | preventDefault
  | setDisabled (value : Bool)
  | setTextContent (value : String)
  deriving DecidableEq, Repr

/-- The file input: the text last assigned to its style.border, and its files
list (null or undefined is none). -/
structure FileInput where
  border : String
  files : Option (List String)
  deriving DecidableEq, Repr

/-- The submit button: its disabled flag and its textContent. -/
structure Button where
  disabled : Bool
  textContent : String
  deriving DecidableEq, Repr

/-- The three references taken by the DOMContentLoaded callback (lines 2 to 4);
form records whether querySelector found a form. -/
structure Page where
  form : Bool
  fileInput : Option FileInput
  submitButton : Option Button
  deriving DecidableEq, Repr

/-- The page together with the actions performed so far during one dispatch. -/
structure World where
  page : Page
  trace : List Effect
  deriving DecidableEq, Repr

/-- JavaScript statements: they may throw, and the writes made before a throw remain. -/
abbrev Js := ExceptT JsError (StateM World)

/-- Appends one action to the trace. -/
def emit (e : Effect) : Js Unit :=
  modify fun w => { w with trace := w.trace ++ [e] }

/-- The reference held in fileInput. -/
def getFileInput : Js (Option FileInput) := do
  return (← get).page.fileInput

/-- The statement fileInput.style.border = value: the assigned text is kept in
the border field and the write is recorded in the trace. -/
def setBorder (value : String) : Js Unit := do
  match (← get).page.fileInput with
  | none => throw JsError.typeError
  | some fi =>
    modify fun w => { w with page := { w.page with fileInput := some { fi with border := value } } }
    emit (Effect.setBorder value)

/-- The call alert(message). -/
def alert (message : String) : Js Unit :=
  emit (Effect.alert message)

/-- The call event.preventDefault(). -/
def preventDefault : Js Unit :=
  emit Effect.preventDefault

/-- The statement submitButton.disabled = value. -/
def setDisabled (value : Bool) : Js Unit := do
  match (← get).page.submitButton with
  | none => throw JsError.typeError
  | some b =>
    modify fun w => { w with page := { w.page with submitButton := some { b with disabled := value } } }
    emit (Effect.setDisabled value)

/-- The statement submitButton.textContent = value. -/
def setTextContent (value : String) : Js Unit := do
  match (← get).page.submitButton with
  | none => throw JsError.typeError
  | some b =>
    modify fun w => { w with page := { w.page with submitButton := some { b with textContent := value } } }
    emit (Effect.setTextContent value)

/-- The condition of line 15:
not fileInput, or not fileInput.files, or fileInput.files.length === 0. -/
def missingOrEmpty (fileInput : Option FileInput) : Bool :=
  match fileInput with
  | none => true
  | some fi =>
    match fi.files with
    | none => true
    | some fs => fs.length == 0

/-- The warning shown on line 19. -/
def warning : String := "⚠️ Please upload a valid CSV file before submitting."

/-- The submit listener, lines 6 to 30. -/
def submitHandler : Js Unit := do
  let mut valid := true
  -- Reset styling
  if (← getFileInput).isSome then
    setBorder "1px solid #ccc"
  -- Validate file input
  if missingOrEmpty (← getFileInput) then
    if (← getFileInput).isSome then
      setBorder "2px solid red"
    alert warning
    valid := false
  if !valid then
    preventDefault
  else
    -- Optional: Show loading state on button
    setDisabled true
    setTextContent "Predicting..."

/-- What one dispatch of the submit event leaves behind. -/
structure Outcome where
  page : Page
  trace : List Effect
  error : Option JsError
  deriving DecidableEq, Repr

/-- Runs the listener on a fresh event against the page. -/
def dispatchSubmit (p : Page) : Outcome :=
  match (submitHandler.run).run { page := p, trace := [] } with
  | (Except.ok _, w) => { page := w.page, trace := w.trace, error := none }
  | (Except.error e, w) => { page := w.page, trace := w.trace, error := some e }

/-- The DOMContentLoaded callback, lines 1 to 31: form.addEventListener throws
when no form was found, otherwise the listener is registered. -/
def onDOMContentLoaded (p : Page) : Except JsError (Page → Outcome) :=
  if p.form then Except.ok dispatchSubmit else Except.error JsError.typeError

/-- The alert messages of a trace, in order. -/
def alerts : List Effect → List String
  | [] => []
  | Effect.alert m :: t => m :: alerts t
  | _ :: t => alerts t

/-- Whether event.preventDefault() was called. -/
def defaultPrevented (t : List Effect) : Bool :=
  t.contains Effect.preventDefault

/-- The user picks files (or clears the picker) between two attempts. -/
def selectFiles (p : Page) (files : Option (List String)) : Page :=
  { p with fileInput := p.fileInput.map fun fi => { fi with files := files } }

/-- One submission attempt: the picker holds the given selection when the event fires. -/
def attempt (p : Page) (files : Option (List String)) : Outcome :=
  dispatchSubmit (selectFiles p files)

/-- The page after a sequence of attempts, one selection per attempt. -/
def pageAfter (p : Page) : List (Option (List String)) → Page
  | [] => p
  | s :: rest => pageAfter (attempt p s).page rest

/-- The values assigned to fileInput.style.border during a dispatch, in order. -/
def borderWrites : List Effect → List String
  | [] => []
  | Effect.setBorder v :: t => v :: borderWrites t
  | _ :: t => borderWrites t

/-- What the user can observe of one attempt: whether the submission was
prevented, the alerts shown, the border of the file input, and the disabled flag
and text of the button. -/
structure Observation where
  prevented : Bool
  alerts : List String
  border : Option String
  disabled : Option Bool
  textContent : Option String
  deriving DecidableEq, Repr

/-- The observation of an outcome. -/
def observe (o : Outcome) : Observation :=
  { prevented := defaultPrevented o.trace
    alerts := alerts o.trace
    border := o.page.fileInput.map FileInput.border
    disabled := o.page.submitButton.map Button.disabled
    textContent := o.page.submitButton.map Button.textContent }

/-- The observation of the last attempt of a sequence: the earlier attempts run
first, then the attempt with the last selection. -/
def lastObservation (p : Page) (earlier : List (Option (List String)))
    (last : Option (List String)) : Observation :=
  observe (attempt (pageAfter p earlier) last)

/-- A page with all three controls and nothing chosen in the picker. -/
def pageNothingChosen : Page :=
  ⟨true, some ⟨"", some []⟩, some ⟨false, "Predict"⟩⟩

/-- A page with all three controls and one file chosen. -/
def pageOneFile : Page :=
  ⟨true, some ⟨"", some ["data.csv"]⟩, some ⟨false, "Predict"⟩⟩

/-- A page with a form and a button but no file input. -/
def pageNoFileInput : Page :=
  ⟨true, none, some ⟨false, "Predict"⟩⟩

/-- A page with a form and a file input holding one file, but no button element. -/
def pageNoButton : Page :=
  ⟨true, some ⟨"", some ["data.csv"]⟩, none⟩

/-- A page with a file input and a button, but no form. -/
def pageNoForm : Page :=
  ⟨false, some ⟨"", some ["data.csv"]⟩, some ⟨false, "Predict"⟩⟩

/-! The listener, case by case -/

theorem dispatch_noInput (f : Bool) (bt : Option Button) :
    dispatchSubmit ⟨f, none, bt⟩ =
      ⟨⟨f, none, bt⟩, [Effect.alert warning, Effect.preventDefault], none⟩ := rfl

theorem dispatch_nullFiles (f : Bool) (b : String) (bt : Option Button) :
    dispatchSubmit ⟨f, some ⟨b, none⟩, bt⟩ =
      ⟨⟨f, some ⟨"2px solid red", none⟩, bt⟩,
       [Effect.setBorder "1px solid #ccc", Effect.setBorder "2px solid red",
        Effect.alert warning, Effect.preventDefault], none⟩ := rfl

theorem dispatch_emptyFiles (f : Bool) (b : String) (bt : Option Button) :
    dispatchSubmit ⟨f, some ⟨b, some []⟩, bt⟩ =
      ⟨⟨f, some ⟨"2px solid red", some []⟩, bt⟩,
       [Effect.setBorder "1px solid #ccc", Effect.setBorder "2px solid red",
        Effect.alert warning, Effect.preventDefault], none⟩ := rfl

theorem dispatch_files_button (f : Bool) (b x : String) (xs : List String) (bt : Button) :
    (dispatchSubmit ⟨f, some ⟨b, some (x :: xs)⟩, some bt⟩).trace =
      [Effect.setBorder "1px solid #ccc", Effect.setDisabled true,
        Effect.setTextContent "Predicting..."] ∧
    (dispatchSubmit ⟨f, some ⟨b, some (x :: xs)⟩, some bt⟩).page.submitButton =
      some ⟨true, "Predicting..."⟩ ∧
    (dispatchSubmit ⟨f, some ⟨b, some (x :: xs)⟩, some bt⟩).error = none :=
  ⟨rfl, rfl, rfl⟩

theorem dispatch_files_noButton (f : Bool) (b x : String) (xs : List String) :
    (dispatchSubmit ⟨f, some ⟨b, some (x :: xs)⟩, none⟩).trace =
      [Effect.setBorder "1px solid #ccc"] ∧
    (dispatchSubmit ⟨f, some ⟨b, some (x :: xs)⟩, none⟩).error = some JsError.typeError :=
  ⟨rfl, rfl⟩

theorem neutral_ne_red : (some "1px solid #ccc" : Option String) ≠ some "2px solid red" := by
  decide

/-! Facts about sequences of attempts -/

theorem attempt_fileInput_isSome (q : Page) (s : Option (List String)) :
    (attempt q s).page.fileInput.isSome = q.fileInput.isSome := by
  obtain ⟨f, fi, bt⟩ := q
  rcases fi with _ | ⟨b, fs⟩
  · rfl
  · rcases s with _ | _ | ⟨x, xs⟩
    · rfl
    · rfl
    · rcases bt with _ | bt <;> rfl

theorem attempt_fileInput_congr (q r : Page) (s : Option (List String))
    (hfi : q.fileInput.isSome = r.fileInput.isSome) :
    (attempt q s).page.fileInput = (attempt r s).page.fileInput := by
  obtain ⟨f, fi, bt⟩ := q
  obtain ⟨g, gi, ct⟩ := r
  rcases fi with _ | ⟨b, fs⟩ <;> rcases gi with _ | ⟨c, gs⟩ <;> simp at hfi
  · rfl
  · rcases s with _ | _ | ⟨x, xs⟩
    · rfl
    · rfl
    · rcases bt with _ | bt <;> rcases ct with _ | ct <;> rfl

theorem attempt_button_isSome (q : Page) (s : Option (List String)) :
    (attempt q s).page.submitButton.isSome = q.submitButton.isSome := by
  obtain ⟨f, fi, bt⟩ := q
  rcases fi with _ | ⟨b, fs⟩
  · rfl
  · rcases s with _ | _ | ⟨x, xs⟩
    · rfl
    · rfl
    · rcases bt with _ | bt <;> rfl

theorem attempt_congr (q r : Page) (s : Option (List String))
    (hfi : q.fileInput.isSome = r.fileInput.isSome)
    (hbt : q.submitButton.isSome = r.submitButton.isSome) :
    (attempt q s).trace = (attempt r s).trace ∧ (attempt q s).error = (attempt r s).error := by
  obtain ⟨f, fi, bt⟩ := q
  obtain ⟨g, gi, ct⟩ := r
  rcases fi with _ | ⟨b, fs⟩ <;> rcases gi with _ | ⟨c, gs⟩ <;> simp at hfi
  · exact ⟨rfl, rfl⟩
  · rcases s with _ | _ | ⟨x, xs⟩
    · exact ⟨rfl, rfl⟩
    · exact ⟨rfl, rfl⟩
    · rcases bt with _ | bt <;> rcases ct with _ | ct <;> simp at hbt <;> exact ⟨rfl, rfl⟩

theorem attempt_button_valid (q r : Page) (s : Option (List String))
    (hfi : q.fileInput.isSome = r.fileInput.isSome)
    (hbt : q.submitButton.isSome = r.submitButton.isSome)
    (hvalid : defaultPrevented (attempt q s).trace = false) :
    (attempt q s).page.submitButton = (attempt r s).page.submitButton := by
  obtain ⟨f, fi, bt⟩ := q
  obtain ⟨g, gi, ct⟩ := r
  rcases fi with _ | ⟨b, fs⟩ <;> rcases gi with _ | ⟨c, gs⟩ <;> simp at hfi
  · exact Bool.noConfusion (show true = false from hvalid)
  · rcases s with _ | _ | ⟨x, xs⟩
    · exact Bool.noConfusion (show true = false from hvalid)
    · exact Bool.noConfusion (show true = false from hvalid)
    · rcases bt with _ | bt <;> rcases ct with _ | ct <;> simp at hbt <;> rfl

theorem attempt_keeps_busy (q : Page) (s : Option (List String))
    (h : q.submitButton = some ⟨true, "Predicting..."⟩) :
    (attempt q s).page.submitButton = some ⟨true, "Predicting..."⟩ := by
  obtain ⟨f, fi, bt⟩ := q
  simp only at h
  subst h
  rcases fi with _ | ⟨b, fs⟩
  · rfl
  · rcases s with _ | _ | ⟨x, xs⟩ <;> rfl

theorem pageAfter_fileInput_isSome (p : Page) (h : List (Option (List String))) :
    (pageAfter p h).fileInput.isSome = p.fileInput.isSome := by
  induction h generalizing p with
  | nil => rfl
  | cons s rest ih =>
    rw [pageAfter, ih, attempt_fileInput_isSome]

theorem pageAfter_button_isSome (p : Page) (h : List (Option (List String))) :
    (pageAfter p h).submitButton.isSome = p.submitButton.isSome := by
  induction h generalizing p with
  | nil => rfl
  | cons s rest ih => rw [pageAfter, ih, attempt_button_isSome]

theorem pageAfter_keeps_busy (q : Page) (h : List (Option (List String)))
    (hq : q.submitButton = some ⟨true, "Predicting..."⟩) :
    (pageAfter q h).submitButton = some ⟨true, "Predicting..."⟩ := by
  induction h generalizing q with
  | nil => exact hq
  | cons s rest ih => exact ih _ (attempt_keeps_busy q s hq)

/-! The claims -/

/-- C1: when the file input exists and has zero selected files, whatever its
border and the button were before, the listener calls preventDefault, leaves the
border at "2px solid red" and shows exactly one alert, with the warning text. -/
theorem C1_empty_selection_rejected (p : Page) (fi : FileInput)
    (hfi : p.fileInput = some fi) (hempty : fi.files = some []) :
    defaultPrevented (dispatchSubmit p).trace = true ∧
    (dispatchSubmit p).page.fileInput.map FileInput.border = some "2px solid red" ∧
    alerts (dispatchSubmit p).trace =
      ["⚠️ Please upload a valid CSV file before submitting."] ∧
    (dispatchSubmit p).error = none := by
  obtain ⟨f, fi0, bt⟩ := p
  obtain ⟨b, fs⟩ := fi
  simp only at hfi hempty
  subst hfi hempty
  exact ⟨rfl, rfl, rfl, rfl⟩

/-- Instance of C1 at a page with all three controls and nothing chosen. -/
theorem C1_empty_selection_rejected_witness :
    (pageNothingChosen.fileInput = some ⟨"", some []⟩) ∧
    defaultPrevented (dispatchSubmit pageNothingChosen).trace = true ∧
    (dispatchSubmit pageNothingChosen).page.fileInput.map FileInput.border
      = some "2px solid red" ∧
    alerts (dispatchSubmit pageNothingChosen).trace =
      ["⚠️ Please upload a valid CSV file before submitting."] ∧
    (dispatchSubmit pageNothingChosen).error = none :=
  ⟨rfl, C1_empty_selection_rejected pageNothingChosen ⟨"", some []⟩ rfl rfl⟩

/-- C2: when the file input exists and has one or more selected files and the
button is present, the listener does not call preventDefault, shows no alert,
and sets the button to disabled with the text "Predicting...". -/
theorem C2_chosen_file_proceeds (p : Page) (fi : FileInput) (bt : Button)
    (fs : List String) (hfi : p.fileInput = some fi) (hbt : p.submitButton = some bt)
    (hfiles : fi.files = some fs) (hne : fs ≠ []) :
    defaultPrevented (dispatchSubmit p).trace = false ∧
    alerts (dispatchSubmit p).trace = [] ∧
    (dispatchSubmit p).page.submitButton = some ⟨true, "Predicting..."⟩ ∧
    (dispatchSubmit p).error = none := by
  obtain ⟨f, fi0, bt0⟩ := p
  obtain ⟨b, gs⟩ := fi
  simp only at hfi hbt hfiles
  subst hfi hbt hfiles
  rcases fs with _ | ⟨x, xs⟩
  · exact absurd rfl hne
  · exact ⟨rfl, rfl, rfl, rfl⟩

/-- Instance of C2 at a page with all three controls and data.csv chosen. -/
theorem C2_chosen_file_proceeds_witness :
    defaultPrevented (dispatchSubmit pageOneFile).trace = false ∧
    alerts (dispatchSubmit pageOneFile).trace = [] ∧
    (dispatchSubmit pageOneFile).page.submitButton = some ⟨true, "Predicting..."⟩ ∧
    (dispatchSubmit pageOneFile).error = none :=
  C2_chosen_file_proceeds pageOneFile ⟨"", some ["data.csv"]⟩ ⟨false, "Predict"⟩
    ["data.csv"] rfl rfl rfl (by decide)

/-- C3: the listener leaves the default action alone exactly when the file input
exists and its files list is present and non-empty; a file input whose files
list is null is rejected; the previous border, the button and the number of
files beyond the first play no part. -/
theorem C3_valid_iff_selection (p : Page) :
    (defaultPrevented (dispatchSubmit p).trace = false ↔
      ∃ fi fs, p.fileInput = some fi ∧ fi.files = some fs ∧ fs ≠ []) ∧
    (∀ fi, p.fileInput = some fi → fi.files = none →
      defaultPrevented (dispatchSubmit p).trace = true) ∧
    (∀ (f : Bool) (b : String) (bt : Option Button) (x : String) (xs : List String),
      defaultPrevented (dispatchSubmit ⟨f, some ⟨b, some (x :: xs)⟩, bt⟩).trace = false) := by
  refine ⟨?_, ?_, ?_⟩
  · obtain ⟨f, fi, bt⟩ := p
    rcases fi with _ | ⟨b, _ | _ | ⟨x, xs⟩⟩
    · exact ⟨fun h => Bool.noConfusion (show true = false from h), by simp⟩
    · exact ⟨fun h => Bool.noConfusion (show true = false from h), by simp⟩
    · exact ⟨fun h => Bool.noConfusion (show true = false from h), by simp⟩
    · refine ⟨fun _ => ⟨⟨b, some (x :: xs)⟩, x :: xs, rfl, rfl, by simp⟩, fun _ => ?_⟩
      rcases bt with _ | bt <;> rfl
  · intro fi hfi hnull
    obtain ⟨f, fi0, bt⟩ := p
    obtain ⟨b, fs⟩ := fi
    simp only at hfi hnull
    subst hfi hnull
    rfl
  · intro f b bt x xs
    rcases bt with _ | bt <;> rfl

/-- C4: a page without a file input is handled like a page whose file input has
an empty selection: in both, preventDefault is called, the warning is shown
exactly once, the button is left as it was, and nothing is thrown. -/
theorem C4_missing_input_fails_closed (p q : Page) (fi : FileInput)
    (hp : p.fileInput = none) (hq : q.fileInput = some fi) (hempty : fi.files = some []) :
    (defaultPrevented (dispatchSubmit p).trace = true ∧
      defaultPrevented (dispatchSubmit q).trace = true) ∧
    (alerts (dispatchSubmit p).trace =
        ["⚠️ Please upload a valid CSV file before submitting."] ∧
      alerts (dispatchSubmit q).trace =
        ["⚠️ Please upload a valid CSV file before submitting."]) ∧
    ((dispatchSubmit p).page.submitButton = p.submitButton ∧
      (dispatchSubmit q).page.submitButton = q.submitButton) ∧
    ((dispatchSubmit p).error = none ∧ (dispatchSubmit q).error = none) := by
  obtain ⟨f, fi0, bt⟩ := p
  obtain ⟨g, gi0, ct⟩ := q
  obtain ⟨b, fs⟩ := fi
  simp only at hp hq hempty
  subst hp hq hempty
  exact ⟨⟨rfl, rfl⟩, ⟨rfl, rfl⟩, ⟨rfl, rfl⟩, ⟨rfl, rfl⟩⟩

/-- Instance of C4 at a page without file input and a page with nothing chosen. -/
theorem C4_missing_input_fails_closed_witness :
    (defaultPrevented (dispatchSubmit pageNoFileInput).trace = true ∧
      defaultPrevented (dispatchSubmit pageNothingChosen).trace = true) ∧
    (alerts (dispatchSubmit pageNoFileInput).trace =
        ["⚠️ Please upload a valid CSV file before submitting."] ∧
      alerts (dispatchSubmit pageNothingChosen).trace =
        ["⚠️ Please upload a valid CSV file before submitting."]) ∧
    ((dispatchSubmit pageNoFileInput).page.submitButton = pageNoFileInput.submitButton ∧
      (dispatchSubmit pageNothingChosen).page.submitButton
        = pageNothingChosen.submitButton) ∧
    ((dispatchSubmit pageNoFileInput).error = none ∧
      (dispatchSubmit pageNothingChosen).error = none) :=
  C4_missing_input_fails_closed pageNoFileInput pageNothingChosen ⟨"", some []⟩ rfl rfl rfl

/-- C5, the code at the failing inputs: with a file chosen and no button element
the listener throws a TypeError after the border reset, without an alert and
without preventDefault; and with no form the DOMContentLoaded callback throws a
TypeError before any listener is registered. -/
theorem C5_missing_button_or_form_throws :
    dispatchSubmit pageNoButton =
      ⟨⟨true, some ⟨"1px solid #ccc", some ["data.csv"]⟩, none⟩,
       [Effect.setBorder "1px solid #ccc"], some JsError.typeError⟩ ∧
    alerts (dispatchSubmit pageNoButton).trace = [] ∧
    defaultPrevented (dispatchSubmit pageNoButton).trace = false ∧
    onDOMContentLoaded pageNoForm = Except.error JsError.typeError :=
  ⟨rfl, rfl, rfl, rfl⟩

/-- C6: on a page with a file input, an attempt with an empty selection followed
by an attempt with a non-empty selection ends in the page a single attempt with
that non-empty selection produces from the same initial page: the only border
write of the second attempt is "1px solid #ccc", so the "2px solid red" the
first attempt left is gone; the second attempt is not prevented and shows no
alert; and a button that is present ends disabled with the text
"Predicting...". -/
theorem C6_invalid_then_valid (p : Page) (fi : FileInput) (e : Option (List String))
    (fs : List String) (hfi : p.fileInput = some fi) (he : e = some [] ∨ e = none)
    (hne : fs ≠ []) :
    (attempt p e).page.fileInput.map FileInput.border = some "2px solid red" ∧
    (attempt (attempt p e).page (some fs)).page = (attempt p (some fs)).page ∧
    borderWrites (attempt (attempt p e).page (some fs)).trace = ["1px solid #ccc"] ∧
    (attempt (attempt p e).page (some fs)).page.fileInput.map FileInput.border
      ≠ some "2px solid red" ∧
    (attempt (attempt p e).page (some fs)).page.fileInput.map FileInput.files
      = some (some fs) ∧
    defaultPrevented (attempt (attempt p e).page (some fs)).trace = false ∧
    alerts (attempt (attempt p e).page (some fs)).trace = [] ∧
    (∀ bt, p.submitButton = some bt →
      (attempt (attempt p e).page (some fs)).page.submitButton
        = some ⟨true, "Predicting..."⟩ ∧
      (attempt (attempt p e).page (some fs)).error = none) := by
  obtain ⟨f, fi0, bt0⟩ := p
  obtain ⟨b, gs⟩ := fi
  simp only at hfi
  subst hfi
  rcases fs with _ | ⟨x, xs⟩
  · exact absurd rfl hne
  · rcases he with he | he <;> subst he <;> rcases bt0 with _ | bt0
    all_goals
      refine ⟨rfl, rfl, rfl, neutral_ne_red, rfl, rfl, rfl, ?_⟩
      intro bt hbt
      simp only at hbt
      first
        | exact Option.noConfusion hbt
        | exact ⟨rfl, rfl⟩

/-- Instance of C6 at a page with nothing chosen, then data.csv chosen. -/
theorem C6_invalid_then_valid_witness :
    (attempt pageNothingChosen (some [])).page.fileInput.map FileInput.border
      = some "2px solid red" ∧
    (attempt (attempt pageNothingChosen (some [])).page (some ["data.csv"])).page
      = (attempt pageNothingChosen (some ["data.csv"])).page ∧
    borderWrites (attempt (attempt pageNothingChosen (some [])).page (some ["data.csv"])).trace
      = ["1px solid #ccc"] ∧
    (attempt (attempt pageNothingChosen (some [])).page
      (some ["data.csv"])).page.fileInput.map FileInput.border ≠ some "2px solid red" ∧
    (attempt (attempt pageNothingChosen (some [])).page
      (some ["data.csv"])).page.fileInput.map FileInput.files = some (some ["data.csv"]) ∧
    defaultPrevented
      (attempt (attempt pageNothingChosen (some [])).page (some ["data.csv"])).trace = false ∧
    alerts (attempt (attempt pageNothingChosen (some [])).page (some ["data.csv"])).trace = [] ∧
    (∀ bt, pageNothingChosen.submitButton = some bt →
      (attempt (attempt pageNothingChosen (some [])).page (some ["data.csv"])).page.submitButton
        = some ⟨true, "Predicting..."⟩ ∧
      (attempt (attempt pageNothingChosen (some [])).page (some ["data.csv"])).error = none) :=
  C6_invalid_then_valid pageNothingChosen ⟨"", some []⟩ (some []) ["data.csv"] rfl
    (Or.inl rfl) (by decide)

/-- C7: on a page with a file input, the first thing the listener does is assign
"1px solid #ccc" to the border, before the selection is looked at.  For a
non-empty selection that is the only border write, so "1px solid #ccc" is the
value the border is left with; for an empty or absent selection the one further
write is "2px solid red", which is the border afterwards.  The file input after
the attempt is the same whatever border it had before, and the same on any other
page whose file input holds the same selection. -/
theorem C7_border_reset_first (p : Page) (fi : FileInput) (hfi : p.fileInput = some fi) :
    (dispatchSubmit p).trace.head? = some (Effect.setBorder "1px solid #ccc") ∧
    (∀ x xs, fi.files = some (x :: xs) →
      borderWrites (dispatchSubmit p).trace = ["1px solid #ccc"] ∧
      (dispatchSubmit p).page.fileInput.map FileInput.border ≠ some "2px solid red") ∧
    (fi.files = some [] ∨ fi.files = none →
      borderWrites (dispatchSubmit p).trace = ["1px solid #ccc", "2px solid red"] ∧
      (dispatchSubmit p).page.fileInput.map FileInput.border = some "2px solid red") ∧
    (∀ b : String,
      (dispatchSubmit { p with fileInput := some { fi with border := b } }).page.fileInput
        = (dispatchSubmit p).page.fileInput) ∧
    (∀ (q : Page) (gi : FileInput), q.fileInput = some gi → gi.files = fi.files →
      (dispatchSubmit q).page.fileInput = (dispatchSubmit p).page.fileInput ∧
      borderWrites (dispatchSubmit q).trace = borderWrites (dispatchSubmit p).trace) := by
  obtain ⟨f, fi0, bt⟩ := p
  obtain ⟨b, fs⟩ := fi
  simp only at hfi
  subst hfi
  have hother : ∀ (q : Page) (gi : FileInput), q.fileInput = some gi → gi.files = fs →
      (dispatchSubmit q).page.fileInput
        = (dispatchSubmit ⟨f, some ⟨b, fs⟩, bt⟩).page.fileInput ∧
      borderWrites (dispatchSubmit q).trace
        = borderWrites (dispatchSubmit ⟨f, some ⟨b, fs⟩, bt⟩).trace := by
    intro q gi hq hg
    obtain ⟨g, gi0, ct⟩ := q
    obtain ⟨c, gs⟩ := gi
    simp only at hq hg
    subst hq hg
    rcases gs with _ | _ | ⟨x, xs⟩
    · exact ⟨rfl, rfl⟩
    · exact ⟨rfl, rfl⟩
    · rcases bt with _ | bt <;> rcases ct with _ | ct <;> exact ⟨rfl, rfl⟩
  refine ⟨?_, ?_, ?_, ?_, hother⟩
  · rcases fs with _ | _ | ⟨x, xs⟩
    · rfl
    · rfl
    · rcases bt with _ | bt <;> rfl
  · intro x xs h
    simp only at h
    subst h
    rcases bt with _ | bt <;> exact ⟨rfl, neutral_ne_red⟩
  · intro h
    simp only at h
    rcases h with h | h <;> subst h <;> exact ⟨rfl, rfl⟩
  · intro c
    rcases fs with _ | _ | ⟨x, xs⟩
    · rfl
    · rfl
    · rcases bt with _ | bt <;> rfl

/-- Instance of C7 at a page with data.csv chosen. -/
theorem C7_border_reset_first_witness :
    (dispatchSubmit pageOneFile).trace.head? = some (Effect.setBorder "1px solid #ccc") ∧
    borderWrites (dispatchSubmit pageOneFile).trace = ["1px solid #ccc"] ∧
    (dispatchSubmit pageOneFile).page.fileInput.map FileInput.border
      ≠ some "2px solid red" :=
  ⟨(C7_border_reset_first pageOneFile ⟨"", some ["data.csv"]⟩ rfl).1,
   (C7_border_reset_first pageOneFile ⟨"", some ["data.csv"]⟩ rfl).2.1 "data.csv" [] rfl⟩

/-- C8 as stated fails: with the same empty selection at the last attempt, the
button is disabled with the text "Predicting..." when a valid attempt came
earlier, and enabled with its original text when none did. -/
theorem C8_button_depends_on_earlier_attempts :
    lastObservation pageNothingChosen [some ["data.csv"]] (some [])
      ≠ lastObservation pageNothingChosen [] (some []) ∧
    (lastObservation pageNothingChosen [some ["data.csv"]] (some [])).disabled = some true ∧
    (lastObservation pageNothingChosen [] (some [])).disabled = some false := by
  decide

/-- C8 amended: whatever the earlier attempts were, the last attempt of a
sequence is prevented or not, shows the same alerts and leaves the same border
according to the selection at that attempt alone; and when that attempt is
valid, the disabled flag and the text of the button are determined by it too. -/
theorem C8_last_attempt_independent_of_history (p : Page)
    (earlier earlier2 : List (Option (List String))) (last : Option (List String)) :
    (lastObservation p earlier last).prevented = (lastObservation p earlier2 last).prevented ∧
    (lastObservation p earlier last).alerts = (lastObservation p earlier2 last).alerts ∧
    (lastObservation p earlier last).border = (lastObservation p earlier2 last).border ∧
    ((lastObservation p earlier last).prevented = false →
      (lastObservation p earlier last).disabled = (lastObservation p earlier2 last).disabled ∧
      (lastObservation p earlier last).textContent
        = (lastObservation p earlier2 last).textContent) := by
  have hfi : (pageAfter p earlier).fileInput.isSome = (pageAfter p earlier2).fileInput.isSome := by
    rw [pageAfter_fileInput_isSome, pageAfter_fileInput_isSome]
  have hbt : (pageAfter p earlier).submitButton.isSome
      = (pageAfter p earlier2).submitButton.isSome := by
    rw [pageAfter_button_isSome, pageAfter_button_isSome]
  have htr := attempt_congr _ _ last hfi hbt
  refine ⟨?_, ?_, ?_, ?_⟩
  · simp only [lastObservation, observe, htr.1]
  · simp only [lastObservation, observe, htr.1]
  · simp only [lastObservation, observe, attempt_fileInput_congr _ _ last hfi]
  · intro hvalid
    have hb := attempt_button_valid _ _ last hfi hbt hvalid
    simp only [lastObservation, observe, hb, and_self]

/-- C9: an attempt the listener rejects leaves the button exactly as it was, and
every attempt leaves the selection of the file input as it was: the file input
after the attempt is the file input before it with at most its border changed. -/
theorem C9_frame (p : Page) :
    (defaultPrevented (dispatchSubmit p).trace = true →
      (dispatchSubmit p).page.submitButton = p.submitButton) ∧
    (dispatchSubmit p).page.fileInput.map FileInput.files
      = p.fileInput.map FileInput.files ∧
    (∃ b : String, (dispatchSubmit p).page.fileInput
      = p.fileInput.map fun fi => { fi with border := b }) ∧
    (dispatchSubmit p).page.form = p.form := by
  obtain ⟨f, fi, bt⟩ := p
  rcases fi with _ | ⟨b, _ | _ | ⟨x, xs⟩⟩
  · exact ⟨fun _ => rfl, rfl, ⟨"", rfl⟩, rfl⟩
  · exact ⟨fun _ => rfl, rfl, ⟨"2px solid red", rfl⟩, rfl⟩
  · exact ⟨fun _ => rfl, rfl, ⟨"2px solid red", rfl⟩, rfl⟩
  · rcases bt with _ | bt
    · exact ⟨fun _ => rfl, rfl, ⟨"1px solid #ccc", rfl⟩, rfl⟩
    · exact ⟨fun h => Bool.noConfusion (show false = true from h), rfl,
        ⟨"1px solid #ccc", rfl⟩, rfl⟩

/-- C10: once an attempt the listener accepts has run on a page with a button,
the button is disabled with the text "Predicting..." after every further
sequence of attempts, accepted or rejected. -/
theorem C10_button_stays_busy (p : Page) (bt : Button) (s : Option (List String))
    (later : List (Option (List String))) (hbt : p.submitButton = some bt)
    (hvalid : defaultPrevented (attempt p s).trace = false) :
    (pageAfter (attempt p s).page later).submitButton = some ⟨true, "Predicting..."⟩ := by
  apply pageAfter_keeps_busy
  obtain ⟨f, fi, bt0⟩ := p
  simp only at hbt
  subst hbt
  rcases fi with _ | ⟨b, fs⟩
  · exact Bool.noConfusion (show true = false from hvalid)
  · rcases s with _ | _ | ⟨x, xs⟩
    · exact Bool.noConfusion (show true = false from hvalid)
    · exact Bool.noConfusion (show true = false from hvalid)
    · rfl

/-- Instance of C10 at an accepted attempt followed by three further attempts. -/
theorem C10_button_stays_busy_witness :
    defaultPrevented (attempt pageNothingChosen (some ["data.csv"])).trace = false ∧
    (pageAfter (attempt pageNothingChosen (some ["data.csv"])).page
      [some [], none, some ["other.csv"]]).submitButton = some ⟨true, "Predicting..."⟩ :=
  ⟨rfl, C10_button_stays_busy pageNothingChosen ⟨false, "Predict"⟩ (some ["data.csv"])
    [some [], none, some ["other.csv"]] rfl rfl⟩

end FormGuard
